import Mathlib

set_option autoImplicit false

/-!
Shallow embedding of the netaccess client (`src/account_manager.rs`, `src/monitor.rs`)
and proofs about it.

The embedding models:
* the HTML tree and the tag selectors used by `parse_connections` / `parse_tr_element`;
* chrono's `NaiveDateTime::parse_from_str` for the fixed format `%d %b %Y, %H:%M`,
  and the UTC+5:30 clock used by `AccountManager::time_now`;
* `std::net::IpAddr` parsing for the dotted-quad addresses appearing in the table;
* the session operations (`login`, `status`, `approve`, `revoke`,
  `check_user_passowrd`) as deterministic functions of an environment that answers
  HTTP requests, recording the trace of issued requests;
* the monitor loop (`Monitor::start` / `Monitor::run`) as a labelled step machine.
-/

namespace Netaccess

/-- An IPv4 address: the concrete case of `std::net::IpAddr` the portal table uses. -/
structure IpAddr where
  o1 : Nat
  o2 : Nat
  o3 : Nat
  o4 : Nat
deriving DecidableEq, Repr

/-- Split a character list at every occurrence of `sep` (models `str::split`). -/
def splitOnChar (sep : Char) : List Char → List (List Char)
  | [] => [[]]
  | c :: cs =>
    let r := splitOnChar sep cs
    if c = sep then [] :: r
    else
      match r with
      | [] => [[c]]
      | g :: gs => (c :: g) :: gs

/-- Numeric value of a digit string, most significant digit first. -/
def digitsVal (cs : List Char) : Nat :=
  cs.foldl (fun a c => a * 10 + (c.toNat - 48)) 0

/-- True when the character list is a nonempty run of ASCII digits. -/
def isDigits (cs : List Char) : Bool :=
  !cs.isEmpty && cs.all (fun c => c.isDigit)

/-- One octet of a dotted-quad address: 1-3 digits, no redundant leading zero,
value at most 255 (models the octet grammar of `Ipv4Addr::from_str`). -/
def parseOctet (cs : List Char) : Option Nat :=
  if isDigits cs && cs.length ≤ 3 && (cs.length == 1 || cs.head? != some '0') then
    let n := digitsVal cs
    if n ≤ 255 then some n else none
  else none

/-- Models `s.parse::<IpAddr>()` for the dotted-quad form. -/
def parseIp (s : String) : Option IpAddr :=
  match (splitOnChar '.' s.toList).mapM parseOctet with
  | some [a, b, c, d] => some ⟨a, b, c, d⟩
  | _ => none

/-- A calendar timestamp with minute precision, as produced by parsing the
portal's `Valid till` column (chrono `NaiveDateTime` with seconds always zero). -/
structure NaiveDateTime where
  year : Nat
  month : Nat
  day : Nat
  hour : Nat
  minute : Nat
deriving DecidableEq, Repr

def isLeapYear (y : Nat) : Bool :=
  y % 4 == 0 && (y % 100 != 0 || y % 400 == 0)

def daysInMonth (y m : Nat) : Nat :=
  if m == 2 then (if isLeapYear y then 29 else 28)
  else if m == 4 || m == 6 || m == 9 || m == 11 then 30
  else 31

/-- Lower-case three-letter month abbreviations, January first. -/
def monthAbbrevs : List (List Char) :=
  [['j','a','n'], ['f','e','b'], ['m','a','r'], ['a','p','r'], ['m','a','y'], ['j','u','n'],
   ['j','u','l'], ['a','u','g'], ['s','e','p'], ['o','c','t'], ['n','o','v'], ['d','e','c']]

/-- 1-based month number of a `%b` month abbreviation, case-insensitively. -/
def parseMonth (cs : List Char) : Option Nat :=
  (monthAbbrevs.findIdx? (fun a => a == cs.map Char.toLower)).map (fun i => i + 1)

/-- Days since 1970-01-01 of a Gregorian civil date (Hinnant's algorithm). -/
def daysFromCivil (y m d : Int) : Int :=
  let y2 := if m ≤ 2 then y - 1 else y
  let era := (if 0 ≤ y2 then y2 else y2 - 399) / 400
  let yoe := y2 - era * 400
  let doy := (153 * (if 2 < m then m - 3 else m + 9) + 2) / 5 + d - 1
  let doe := yoe * 365 + yoe / 4 - yoe / 100 + doy
  era * 146097 + doe - 719468

/-- Seconds since the 1970-01-01 00:00 epoch of a naive timestamp. -/
def NaiveDateTime.toSecs (dt : NaiveDateTime) : Int :=
  daysFromCivil dt.year dt.month dt.day * 86400 + dt.hour * 3600 + dt.minute * 60

/-- Models `NaiveDateTime::parse_from_str(s, "%d %b %Y, %H:%M")`: a 1-2 digit day,
a month abbreviation (case-insensitive), the year digits, a comma, a space, then
1-2 digit hour and minute, with calendar validation of the day, hour and minute. -/
def parse_valid_till (s : String) : Option NaiveDateTime :=
  match splitOnChar ' ' s.toList with
  | [dayCs, monCs, yearCommaCs, timeCs] =>
    if yearCommaCs.getLast? == some ',' then
      let yearCs := yearCommaCs.dropLast
      match splitOnChar ':' timeCs with
      | [hourCs, minCs] =>
        match parseMonth monCs with
        | some m =>
          let d := digitsVal dayCs
          let y := digitsVal yearCs
          let hh := digitsVal hourCs
          let mm := digitsVal minCs
          if isDigits dayCs && dayCs.length ≤ 2 && isDigits yearCs &&
              isDigits hourCs && hourCs.length ≤ 2 && isDigits minCs && minCs.length ≤ 2 &&
              1 ≤ d && d ≤ daysInMonth y m && hh ≤ 23 && mm ≤ 59 then
            some ⟨y, m, d, hh, mm⟩
          else none
        | none => none
      | _ => none
    else none
  | _ => none

mutual
/-- A node of the parsed HTML document (`scraper::Html`): an element with a tag
and children, or a text node. -/
inductive Node where
  | text (s : String)
  | element (tag : String) (children : NodeList)

/-- A list of sibling HTML nodes. -/
inductive NodeList where
  | nil
  | cons (head : Node) (tail : NodeList)
end

/-- Build a `NodeList` from a `List Node`. -/
def nlist : List Node → NodeList
  | [] => .nil
  | n :: ns => .cons n (nlist ns)

mutual
/-- Elements whose tag is `tag` among `n` and its descendants, in document order. -/
def selectNode (tag : String) : Node → List Node
  | .text _ => []
  | .element t cs => (if t == tag then [Node.element t cs] else []) ++ selectInList tag cs

/-- Elements whose tag is `tag` among the nodes of `l` and their descendants. -/
def selectInList (tag : String) : NodeList → List Node
  | .nil => []
  | .cons h t => selectNode tag h ++ selectInList tag t
end

/-- Models `ElementRef::select` with a tag selector: the matching elements among
the strict descendants of `n`, in document order. -/
def select (tag : String) (n : Node) : List Node :=
  match n with
  | .text _ => []
  | .element _ children => selectInList tag children

/-- Models `AccountManager::extract_text`: the first child node of the element,
if it is a text node. -/
def extract_text : Node → Option String
  | .element _ (.cons (.text s) _) => some s
  | _ => none

/-- Models the `Connection` struct: remaining validity in seconds (chrono
`Duration`, modelled as `Int`) and the server-reported active flag. -/
structure Connection where
  time_left : Int
  is_active : Bool
deriving DecidableEq, Repr

/-- Models `impl Default for Connection`: zero duration, inactive. -/
def Connection.default : Connection := ⟨0, false⟩

/-- Models `Connection::is_active()`: `!self.time_left.is_zero() && self.is_active`. -/
def Connection.isActive (c : Connection) : Bool :=
  !(c.time_left == 0) && c.is_active

/-- Models the `SystemStatus` struct: the caller's own address and its connection. -/
structure SystemStatus where
  ip : IpAddr
  connection : Connection
deriving DecidableEq, Repr

/-- The connection table, modelled as an association list with unique keys
(`HashMap<IpAddr, Connection>`). -/
abbrev ConnMap := List (IpAddr × Connection)

/-- Insert with overwrite, the `HashMap::insert` semantics used when the row
iterator is collected into a map. -/
def insertConn : ConnMap → IpAddr → Connection → ConnMap
  | [], ip, c => [(ip, c)]
  | (k, v) :: rest, ip, c =>
    if k = ip then (ip, c) :: rest else (k, v) :: insertConn rest ip c

/-- Models `HashMap::get`. -/
def lookupConn : ConnMap → IpAddr → Option Connection
  | [], _ => none
  | (k, v) :: rest, ip => if k = ip then some v else lookupConn rest ip

/-- Models `HashMap::remove` (dropping every entry with the key). -/
def eraseConn : ConnMap → IpAddr → ConnMap
  | [], _ => []
  | (k, v) :: rest, ip =>
    if k = ip then eraseConn rest ip else (k, v) :: eraseConn rest ip

/-- Models the `Status` struct. -/
structure Status where
  system_status : SystemStatus
  connections : ConnMap
deriving DecidableEq, Repr

/-- Models `Status::is_connection_active`:
`self.connections.get(ip).is_some_and(Connection::is_active)`. -/
def Status.is_connection_active (s : Status) (ip : IpAddr) : Bool :=
  match lookupConn s.connections ip with
  | some c => c.isActive
  | none => false

/-- The portal clock offset `INDIA_TZ` (UTC+5:30) in seconds. -/
def INDIA_TZ : Int := 5 * 3600 + 30 * 60

/-- Models `AccountManager::parse_tr_element`, acting on one `tr` element given
the current portal-local time in seconds: skip the first `td` (MAC), read the
next `td` as the IP text, the next as the `Valid till` text, the row's first
`span` as the status label; `time_left` is clamped at zero. -/
def parse_tr_element (nowSecs : Int) (tr : Node) : Except String (IpAddr × Connection) :=
  match ((select "td" tr).drop 1).head? with
  | none => .error "Missing IP address element"
  | some ipEl =>
    match extract_text ipEl with
    | none => .error "Extracting IP address failed"
    | some ipStr =>
      match (((select "td" tr).drop 1).drop 1).head? with
      | none => .error "Missing remaining duration element"
      | some vtEl =>
        match extract_text vtEl with
        | none => .error "Extracting remaining duration failed"
        | some vtStr =>
          match parse_valid_till vtStr with
          | none => .error "Failed to parse remaining duration"
          | some validTill =>
            match (select "span" tr).head? with
            | none => .error "Missing status element"
            | some statusEl =>
              match extract_text statusEl with
              | none => .error "Extracting status failed"
              | some statusStr =>
                match parseIp ipStr with
                | none => .error "Failed to parse ip address"
                | some ip =>
                  .ok (ip,
                    { time_left := max 0 (validTill.toSecs - nowSecs),
                      is_active := statusStr == "Active" })

/-- Collect the parsed rows into the connection map, stopping at the first
failing row (the `Result` collection in `parse_connections`). -/
def collectConnections (nowSecs : Int) : List Node → ConnMap → Except String ConnMap
  | [], acc => .ok acc
  | tr :: rest, acc =>
    match parse_tr_element nowSecs tr with
    | .error e => .error e
    | .ok (ip, c) => collectConnections nowSecs rest (insertConn acc ip c)

/-- Models `AccountManager::parse_connections`: take the document's first
`tbody`, skip its first `tr` (the header row), and parse every remaining row. -/
def parse_connections (nowSecs : Int) (doc : Node) : Except String ConnMap :=
  match (select "tbody" doc).head? with
  | none => .error "Html does not have a tbody element"
  | some tbody => collectConnections nowSecs ((select "tr" tbody).drop 1) []

/-- Models the `User` struct. -/
structure User where
  name : String
  password : String
deriving DecidableEq, Repr

/-- Models the `Error` enum of `account_manager.rs`. -/
inductive Error where
  | reqwest
  | invalidCredentials
  | other (msg : String)
deriving DecidableEq, Repr

/-- The HTTP requests the account manager can issue. -/
inductive Request where
  | getIndex
  | postLogin (username password : String)
  | postApprove (durationIndex : Nat)
  | postRevoke (ip : IpAddr)
deriving DecidableEq, Repr

/-- An HTTP response after redirects: its status success flag, the path of its
resolved URL, and the document of its body. -/
structure Response where
  success : Bool
  path : String
  body : Node

/-- The deterministic environment of one execution: how the network answers each
request (`none` models a transport failure of `send`), the local address lookup
(`local_ip_address::local_ip`), and the UTC clock in seconds. -/
structure Env where
  resp : Request → Option Response
  localIp : Option IpAddr
  utcNowSecs : Int

/-- Models `AccountManager::time_now`: the UTC clock shifted to `INDIA_TZ`. -/
def time_now (env : Env) : Int := env.utcNowSecs + INDIA_TZ

def LOGIN_PATH : String := "/account/login"

def INDEX_PATH : String := "/account/index"

/-- The result of an operation together with the trace of requests it issued. -/
abbrev ResT (α : Type) := Except Error α × List Request

/-- Models `AccountManager::is_logged_in`: request the index page and test
whether the resolved URL path is the index path. -/
def is_logged_in (env : Env) : Except String Bool × List Request :=
  match env.resp .getIndex with
  | none => (.error "HTTP request error", [.getIndex])
  | some resp =>
    if resp.success then (.ok (resp.path == INDEX_PATH), [.getIndex])
    else (.error "Index page response is not a success", [.getIndex])

/-- The form-submission tail of `AccountManager::login`: post the login form and
classify the resolved URL path of the response. -/
def loginSubmit (env : Env) (user : User) : ResT Unit :=
  match env.resp (.postLogin user.name user.password) with
  | none => (.error .reqwest, [.postLogin user.name user.password])
  | some resp =>
    (if !resp.success then .error (.other "Login response failed with status")
     else if resp.path == INDEX_PATH then .ok ()
     else if resp.path == LOGIN_PATH then .error .invalidCredentials
     else .error (.other ("Unexpected URL path in login response " ++ resp.path)),
     [.postLogin user.name user.password])

/-- Models `AccountManager::login`: unless forced, probe the session first and
return without submitting when already authenticated. -/
def login (env : Env) (user : User) (force : Bool) : ResT Unit :=
  if force then loginSubmit env user
  else
    match is_logged_in env with
    | (.error e, tr) => (.error (.other e), tr)
    | (.ok true, tr) => (.ok (), tr)
    | (.ok false, tr) =>
      match loginSubmit env user with
      | (r, tr2) => (r, tr ++ tr2)

/-- Models `AccountManager::check_user_passowrd`: a forced login. -/
def check_user_passowrd (env : Env) (user : User) : ResT Unit :=
  login env user true

/-- Models `AccountManager::status`: ensure login, fetch the index page, parse
its table, then split off the caller's own address into `system_status`. -/
def status (env : Env) (user : User) : ResT Status :=
  match login env user false with
  | (.error e, tr) => (.error e, tr)
  | (.ok _, tr) =>
    match env.resp .getIndex with
    | none => (.error .reqwest, tr ++ [.getIndex])
    | some page =>
      match parse_connections (time_now env) page.body with
      | .error e => (.error (.other e), tr ++ [.getIndex])
      | .ok conns =>
        match env.localIp with
        | none => (.error (.other "Failed to get local ip address"), tr ++ [.getIndex])
        | some ip =>
          (.ok { system_status :=
                   { ip := ip, connection := (lookupConn conns ip).getD Connection.default },
                 connections := eraseConn conns ip },
           tr ++ [.getIndex])

/-- Models `AccountManager::approve`: compute status; unless forced, return the
own address when its connection is already active; otherwise post the approve
form and classify the resolved URL path. -/
def approve (env : Env) (user : User) (durationIndex : Nat) (force : Bool) : ResT IpAddr :=
  match status env user with
  | (.error e, tr) => (.error e, tr)
  | (.ok st, tr) =>
    let ip := st.system_status.ip
    if !force && st.system_status.connection.isActive then (.ok ip, tr)
    else
      match env.resp (.postApprove durationIndex) with
      | none => (.error .reqwest, tr ++ [.postApprove durationIndex])
      | some resp =>
        (if !resp.success then .error (.other "Approve response failed with status")
         else if resp.path == INDEX_PATH then .ok ip
         else .error (.other ("Unexpected URL path in approve response " ++ resp.path)),
         tr ++ [.postApprove durationIndex])

/-- Models `AccountManager::revoke`: compute status; resolve the target address
(the parsed argument, or the local address); return it when
`Status::is_connection_active` reports it inactive; otherwise post the revoke
request and classify the resolved URL path. -/
def revoke (env : Env) (user : User) (ipArg : Option String) : ResT IpAddr :=
  match status env user with
  | (.error e, tr) => (.error e, tr)
  | (.ok st, tr) =>
    let target : Except Error IpAddr :=
      match ipArg with
      | some s =>
        match parseIp s with
        | some ip => .ok ip
        | none => .error (.other ("Ip address is malformed " ++ s))
      | none =>
        match env.localIp with
        | some ip => .ok ip
        | none => .error (.other "Failed to get local ip address")
    match target with
    | .error e => (.error e, tr)
    | .ok ip =>
      if !(st.is_connection_active ip) then (.ok ip, tr)
      else
        match env.resp (.postRevoke ip) with
        | none => (.error .reqwest, tr ++ [.postRevoke ip])
        | some resp =>
          (if !resp.success then .error (.other "Revoke response failed with status")
           else if resp.path == INDEX_PATH then .ok ip
           else .error (.other ("Unexpected URL path in revoke response " ++ resp.path)),
           tr ++ [.postRevoke ip])

/-- Models the monitor's `State` enum; the embedded one-shot senders are
represented by the step machine's signals rather than stored in the variant. -/
inductive MonitorState where
  | suspended (duration : Nat)
  | checkingStatus
  | approving (ip : IpAddr)
  | errored (e : Error)
deriving DecidableEq, Repr

/-- What one call of `Monitor::run` produced: its outcome (`ok true` means it
ended inside the `Suspended` select, `ok false` means the approve path finished
and the loop proceeds), the states sent on the lifecycle channel in order, the
snapshots sent on the watch channel, and the HTTP requests issued. -/
structure IterResult where
  outcome : Except Error Bool
  states : List MonitorState
  watch : List SystemStatus
  reqs : List Request
deriving Repr

/-- Models one call of `Monitor::run` (both channels delivering). -/
def monitorIter (env : Env) (user : User) (durationIndex suspendDuration : Nat) : IterResult :=
  match status env user with
  | (.error e, tr) =>
    { outcome := .error e, states := [.checkingStatus], watch := [], reqs := tr }
  | (.ok st, tr) =>
    if !st.system_status.connection.isActive then
      match approve env user durationIndex false with
      | (.error e, tr2) =>
        { outcome := .error e,
          states := [.checkingStatus, .approving st.system_status.ip],
          watch := [st.system_status], reqs := tr ++ tr2 }
      | (.ok _, tr2) =>
        { outcome := .ok false,
          states := [.checkingStatus, .approving st.system_status.ip],
          watch := [st.system_status], reqs := tr ++ tr2 }
    else
      { outcome := .ok true,
        states := [.checkingStatus, .suspended suspendDuration],
        watch := [st.system_status], reqs := tr }

/-- The monitor loop's control position between scheduler steps: about to run an
iteration, parked in the `Suspended` select, parked on `retry_receiver.await`
after an `Error` was emitted, or terminated. -/
inductive Phase where
  | ready
  | suspendWait
  | retryWait (e : Error)
  | stopped
deriving DecidableEq, Repr

/-- The external events a parked monitor can observe: the scheduler running the
loop body, the suspend timer elapsing, the wake one-shot firing or being
dropped, and the retry one-shot firing or being dropped. -/
inductive Signal where
  | runBody
  | timerElapsed
  | wake
  | wakeDropped
  | retry
  | retryDropped
deriving DecidableEq, Repr

/-- The observable output of one monitor step. -/
structure StepOutput where
  phase : Phase
  states : List MonitorState
  watch : List SystemStatus
  reqs : List Request
deriving DecidableEq, Repr

/-- Models the loop of `Monitor::start` as a labelled step machine.  In `ready`,
`runBody` performs one `Monitor::run`; an `Err` outcome sends `State::Error` and
parks on the retry one-shot.  In the `Suspended` select, the timer, the wake
signal, or a dropped wake sender all resume the loop.  On the retry wait, only
the retry one-shot is observed: receiving it resumes the loop, a dropped sender
terminates the loop, and nothing else is observed at all. -/
def monitorStep (env : Env) (user : User) (durationIndex suspendDuration : Nat) :
    Phase → Signal → StepOutput
  | .ready, .runBody =>
    let r := monitorIter env user durationIndex suspendDuration
    match r.outcome with
    | .error e =>
      { phase := .retryWait e, states := r.states ++ [.errored e],
        watch := r.watch, reqs := r.reqs }
    | .ok true => { phase := .suspendWait, states := r.states, watch := r.watch, reqs := r.reqs }
    | .ok false => { phase := .ready, states := r.states, watch := r.watch, reqs := r.reqs }
  | .ready, _ => { phase := .ready, states := [], watch := [], reqs := [] }
  | .suspendWait, .timerElapsed => { phase := .ready, states := [], watch := [], reqs := [] }
  | .suspendWait, .wake => { phase := .ready, states := [], watch := [], reqs := [] }
  | .suspendWait, .wakeDropped => { phase := .ready, states := [], watch := [], reqs := [] }
  | .suspendWait, _ => { phase := .suspendWait, states := [], watch := [], reqs := [] }
  | .retryWait _, .retry => { phase := .ready, states := [], watch := [], reqs := [] }
  | .retryWait _, .retryDropped => { phase := .stopped, states := [], watch := [], reqs := [] }
  | .retryWait e, _ => { phase := .retryWait e, states := [], watch := [], reqs := [] }
  | .stopped, _ => { phase := .stopped, states := [], watch := [], reqs := [] }

/-! Concrete fixtures: the sample table from the doc comment of
`parse_tr_element`, and an environment in which every request succeeds. -/

/-- The header row of the portal table. -/
def headerRow : Node :=
  .element "tr" (nlist
    [.element "th" (nlist [.text "MAC"]),
     .element "th" (nlist [.text "IP"]),
     .element "th" (nlist [.text "Valid till"]),
     .element "th" (nlist [.text "Download today"]),
     .element "th" (nlist [.text "Status"])])

/-- A data row: MAC, IP `10.1.2.3`, expiry `24 Jul 2023, 10:07`, usage, an
`Active` badge, and a delete link. -/
def sampleRow : Node :=
  .element "tr" (nlist
    [.element "td" (nlist [.text "<E:XP:IR:ED:>"]),
     .element "td" (nlist [.text "10.1.2.3"]),
     .element "td" (nlist [.text "24 Jul 2023, 10:07"]),
     .element "td" (nlist [.text "     0 B"]),
     .element "td" (nlist [.element "span" (nlist [.text "Active"])]),
     .element "td" (nlist [.element "a" (nlist [.element "span" (nlist [.text "Delete"])])])])

/-- The parsed expiry of `sampleRow`. -/
def sampleExpiry : NaiveDateTime := ⟨2023, 7, 24, 10, 7⟩

/-- An index page holding the header row and `sampleRow`. -/
def sampleDoc : Node :=
  .element "html" (nlist
    [.element "body" (nlist
      [.element "table" (nlist
        [.element "tbody" (nlist [headerRow, sampleRow])])])])

/-- The caller's own address in the fixtures. -/
def ownIp : IpAddr := ⟨10, 1, 2, 3⟩

/-- Fixture environment: every request succeeds and resolves to the index path,
the index page body is `sampleDoc`, the local address is `ownIp`, and the clock
reads the epoch (so the `2023` expiry of `sampleRow` lies in the future). -/
def envW : Env :=
  { resp := fun r =>
      match r with
      | .getIndex => some { success := true, path := INDEX_PATH, body := sampleDoc }
      | _ => some { success := true, path := INDEX_PATH, body := Node.text "" }
    localIp := some ownIp
    utcNowSecs := 0 }

/-- Fixture user. -/
def userW : User := ⟨"ab19c001", "secret"⟩

/-- The remaining time of `sampleRow` against `envW`'s clock. -/
def tlW : Int := max 0 (sampleExpiry.toSecs - time_now envW)

/-- The status `envW` yields: the own row moved into `system_status`, the
mapping left empty. -/
def stW : Status :=
  { system_status := { ip := ownIp, connection := { time_left := tlW, is_active := true } },
    connections := [] }

/-- A data row lacking its expiry cell (only the MAC and IP cells are present). -/
def badRow : Node :=
  .element "tr" (nlist
    [.element "td" (nlist [.text "<E:XP:IR:ED:>"]),
     .element "td" (nlist [.text "10.1.2.4"])])

/-- The tbody of `badDoc`. -/
def badTbody : Node := .element "tbody" (nlist [headerRow, badRow])

/-- A document whose only data row is `badRow`. -/
def badDoc : Node := .element "html" (nlist [badTbody])

/-- The index page response of `envW`. -/
def pageW : Response := { success := true, path := INDEX_PATH, body := sampleDoc }

/-- The connection map parsed from `sampleDoc` against `envW`'s clock. -/
def mW : ConnMap := [(ownIp, { time_left := tlW, is_active := true })]

/-- The connection `sampleRow` parses to when evaluated one hour after its
expiry: the clamp leaves zero remaining time. -/
def cExpired : Connection :=
  ⟨max 0 (sampleExpiry.toSecs - (sampleExpiry.toSecs + 3600)), true⟩

/-- An environment like `envW` except that its index probe resolves to the
login page (no authenticated session). -/
def envNoSession : Env :=
  { resp := fun r =>
      match r with
      | .getIndex => some { success := true, path := LOGIN_PATH, body := sampleDoc }
      | _ => some { success := true, path := INDEX_PATH, body := Node.text "" }
    localIp := some ownIp
    utcNowSecs := 0 }

/-! Helper lemmas. -/

@[simp] theorem selectNode_text (tag s : String) : selectNode tag (.text s) = [] := rfl

@[simp] theorem selectNode_element (tag t : String) (cs : NodeList) :
    selectNode tag (.element t cs) =
      (if t == tag then [Node.element t cs] else []) ++ selectInList tag cs := rfl

@[simp] theorem selectInList_nil (tag : String) : selectInList tag .nil = [] := rfl

@[simp] theorem selectInList_cons (tag : String) (h : Node) (t : NodeList) :
    selectInList tag (.cons h t) = selectNode tag h ++ selectInList tag t := rfl

theorem lookup_erase (m : ConnMap) (ip : IpAddr) : lookupConn (eraseConn m ip) ip = none := by
  induction m with
  | nil => rfl
  | cons hd tl ih =>
    obtain ⟨k, v⟩ := hd
    unfold eraseConn
    by_cases h : k = ip
    · simp [h, ih]
    · simp [h, lookupConn, ih]

theorem collect_error_of_row (nowSecs : Int) (rows : List Node) (acc : ConnMap)
    (h : ∃ tr ∈ rows, (parse_tr_element nowSecs tr).isOk = false) :
    ∃ e, collectConnections nowSecs rows acc = .error e := by
  induction rows generalizing acc with
  | nil => obtain ⟨tr, htr, _⟩ := h; cases htr
  | cons hd tl ih =>
    obtain ⟨tr, htr, hfail⟩ := h
    unfold collectConnections
    rcases List.mem_cons.mp htr with rfl | hmem
    · cases hp : parse_tr_element nowSecs tr with
      | error e => exact ⟨e, by simp [hp]⟩
      | ok v => rw [hp] at hfail; exact Bool.noConfusion hfail
    · cases hp : parse_tr_element nowSecs hd with
      | error e => exact ⟨e, by simp [hp]⟩
      | ok v =>
        obtain ⟨ip, c⟩ := v
        obtain ⟨e, he⟩ := ih (insertConn acc ip c) ⟨tr, hmem, hfail⟩
        exact ⟨e, by simp [hp, he]⟩

theorem collect_ok_rows (nowSecs : Int) (rows : List Node) (acc m : ConnMap)
    (h : collectConnections nowSecs rows acc = .ok m) :
    ∀ tr ∈ rows, (parse_tr_element nowSecs tr).isOk = true := by
  induction rows generalizing acc with
  | nil => intro tr htr; cases htr
  | cons hd tl ih =>
    intro tr htr
    unfold collectConnections at h
    cases hp : parse_tr_element nowSecs hd with
    | error e => rw [hp] at h; cases h
    | ok v =>
      obtain ⟨ip, c⟩ := v
      rw [hp] at h
      rcases List.mem_cons.mp htr with rfl | hmem
      · rw [hp]; rfl
      · exact ih (insertConn acc ip c) h tr hmem

/-! The claims. -/

/-- C8: for every constructed `Connection` — whose `time_left` is nonnegative,
as `Default` and the clamping parser guarantee — `is_active()` returns `true`
exactly when the server flag is set and the remaining time is strictly
positive. -/
theorem connection_is_active_iff (t : Int) (f : Bool) (h : 0 ≤ t) :
    Connection.isActive ⟨t, f⟩ = true ↔ (f = true ∧ 0 < t) := by
  unfold Connection.isActive
  simp only [Bool.and_eq_true, Bool.not_eq_true', beq_eq_false_iff_ne, ne_eq]
  constructor
  · rintro ⟨ht, hf⟩
    exact ⟨hf, by omega⟩
  · rintro ⟨hf, ht⟩
    exact ⟨by omega, hf⟩

/-- Witness for C8 at `time_left = 5`, flag set. -/
theorem connection_is_active_iff_witness :
    (0 : Int) ≤ 5 ∧ (Connection.isActive ⟨5, true⟩ = true ↔ (true = true ∧ (0 : Int) < 5)) :=
  ⟨by decide, connection_is_active_iff 5 true (by decide)⟩

/-- C9: a successfully parsed row's `time_left` is never negative, and whenever
the parsed expiry lies strictly before the current portal-local time the clamp
makes it exactly zero. -/
theorem parse_time_left_clamped (nowSecs : Int) (tr : Node) (ip : IpAddr) (c : Connection)
    (h : parse_tr_element nowSecs tr = .ok (ip, c)) :
    0 ≤ c.time_left ∧
    (∀ vtEl : Node, ∀ vtStr : String, ∀ validTill : NaiveDateTime,
      (((select "td" tr).drop 1).drop 1).head? = some vtEl →
      extract_text vtEl = some vtStr →
      parse_valid_till vtStr = some validTill →
      validTill.toSecs < nowSecs →
      c.time_left = 0) := by
  unfold parse_tr_element at h
  split at h; · simp at h
  rename_i ipEl hIpEl
  split at h; · simp at h
  rename_i ipStr hIpStr
  split at h; · simp at h
  rename_i vtEl0 hVtEl
  split at h; · simp at h
  rename_i vtStr0 hVtStr
  split at h; · simp at h
  rename_i validTill0 hVt
  split at h; · simp at h
  rename_i statusEl hStatusEl
  split at h; · simp at h
  rename_i statusStr hStatusStr
  split at h; · simp at h
  rename_i ip2 hIp2
  injection h with h
  injection h with h1 h2
  subst h2
  constructor
  · exact le_max_left 0 _
  · intro vtEl vtStr validTill he ht hp hlt
    rw [hVtEl] at he
    injection he with he
    subst he
    rw [hVtStr] at ht
    injection ht with ht
    subst ht
    rw [hVt] at hp
    injection hp with hp
    subst hp
    show max 0 (validTill0.toSecs - nowSecs) = 0
    omega

/-- C6: the parser reads each data row through its second `td` (the IP text),
its third `td` (the expiry text, in the fixed `%d %b %Y, %H:%M` format), and the
row's first `span` (the label, active exactly when it is the case-sensitive
string "Active"); `parse_connections` skips the tbody's first row as a header;
and the clock the rows are evaluated against is the UTC clock shifted by the
fixed offset of 5 hours 30 minutes. -/
theorem parse_row_structure (nowSecs : Int) (tr ipEl vtEl statusEl : Node)
    (ipStr vtStr label : String) (ip : IpAddr) (validTill : NaiveDateTime)
    (h1 : ((select "td" tr).drop 1).head? = some ipEl)
    (h2 : extract_text ipEl = some ipStr)
    (h3 : (((select "td" tr).drop 1).drop 1).head? = some vtEl)
    (h4 : extract_text vtEl = some vtStr)
    (h5 : parse_valid_till vtStr = some validTill)
    (h6 : (select "span" tr).head? = some statusEl)
    (h7 : extract_text statusEl = some label)
    (h8 : parseIp ipStr = some ip) :
    parse_tr_element nowSecs tr =
      .ok (ip, { time_left := max 0 (validTill.toSecs - nowSecs),
                 is_active := label == "Active" }) ∧
    (∀ doc tbody hd : Node, ∀ rest : List Node,
      (select "tbody" doc).head? = some tbody →
      select "tr" tbody = hd :: rest →
      parse_connections nowSecs doc = collectConnections nowSecs rest []) ∧
    (∀ env : Env, time_now env = env.utcNowSecs + (5 * 3600 + 30 * 60)) := by
  refine ⟨?_, ?_, fun env => rfl⟩
  · simp only [parse_tr_element, h1, h2, h3, h4, h5, h6, h7, h8]
  · intro doc tbody hd rest htb hrows
    simp only [parse_connections, htb, hrows, List.drop_succ_cons, List.drop_zero]

/-- Witness for C6 at `sampleRow`: IP `10.1.2.3`, expiry `24 Jul 2023, 10:07`,
label `Active`. -/
theorem parse_row_structure_witness :
    parse_tr_element 0 sampleRow =
      .ok (ownIp, { time_left := max 0 (sampleExpiry.toSecs - 0),
                    is_active := ("Active" == "Active") }) :=
  (parse_row_structure 0 sampleRow
    (.element "td" (nlist [.text "10.1.2.3"]))
    (.element "td" (nlist [.text "24 Jul 2023, 10:07"]))
    (.element "span" (nlist [.text "Active"]))
    "10.1.2.3" "24 Jul 2023, 10:07" "Active" ownIp sampleExpiry
    rfl rfl rfl rfl rfl rfl rfl rfl).1

/-- C4: `parse_connections` fails as a whole — never yielding a partial map —
when the document lacks a tbody or any data row fails (a fortiori when a row
misses its IP, expiry or status cell, or its IP or expiry text does not parse);
and when it succeeds, every data row parsed. -/
theorem parse_connections_fail_fast (nowSecs : Int) (doc : Node) :
    ((select "tbody" doc).head? = none →
       parse_connections nowSecs doc = .error "Html does not have a tbody element") ∧
    (∀ tbody : Node, (select "tbody" doc).head? = some tbody →
       (∃ tr ∈ (select "tr" tbody).drop 1, (parse_tr_element nowSecs tr).isOk = false) →
       ∃ e, parse_connections nowSecs doc = .error e) ∧
    (∀ m : ConnMap, parse_connections nowSecs doc = .ok m →
       ∀ tbody : Node, (select "tbody" doc).head? = some tbody →
       ∀ tr ∈ (select "tr" tbody).drop 1, (parse_tr_element nowSecs tr).isOk = true) ∧
    (∀ tr : Node,
       (((select "td" tr).drop 1).head? = none ∨
        (((select "td" tr).drop 1).drop 1).head? = none ∨
        (select "span" tr).head? = none) →
       (parse_tr_element nowSecs tr).isOk = false) ∧
    (∀ tr ipEl : Node, ∀ ipStr : String,
       ((select "td" tr).drop 1).head? = some ipEl →
       extract_text ipEl = some ipStr →
       parseIp ipStr = none →
       (parse_tr_element nowSecs tr).isOk = false) ∧
    (∀ tr vtEl : Node, ∀ vtStr : String,
       (((select "td" tr).drop 1).drop 1).head? = some vtEl →
       extract_text vtEl = some vtStr →
       parse_valid_till vtStr = none →
       (parse_tr_element nowSecs tr).isOk = false) := by
  refine ⟨?_, ?_, ?_, ?_, ?_, ?_⟩
  · intro h
    simp only [parse_connections, h]
  · intro tbody htb hex
    simp only [parse_connections, htb]
    exact collect_error_of_row nowSecs _ [] hex
  · intro m hok tbody htb tr htr
    simp only [parse_connections, htb] at hok
    exact collect_ok_rows nowSecs _ [] m hok tr htr
  · intro tr h
    unfold parse_tr_element
    rcases h with h | h | h
    · simp only [h]; rfl
    · split
      · rfl
      split
      · rfl
      simp only [h]; rfl
    · split
      · rfl
      split
      · rfl
      split
      · rfl
      split
      · rfl
      split
      · rfl
      simp only [h]; rfl
  · intro tr ipEl ipStr hEl hText hIp
    unfold parse_tr_element
    simp only [hEl, hText]
    split
    · rfl
    split
    · rfl
    split
    · rfl
    split
    · rfl
    split
    · rfl
    simp only [hIp]; rfl
  · intro tr vtEl vtStr hEl hText hVt
    unfold parse_tr_element
    split
    · rfl
    split
    · rfl
    simp only [hEl, hText, hVt]; rfl

/-- Witness for C4: the document whose data row lacks the expiry cell fails the
whole parse. -/
theorem parse_connections_fail_fast_witness :
    ∃ e, parse_connections 0 badDoc = Except.error e :=
  (parse_connections_fail_fast 0 badDoc).2.1 badTbody rfl
    ⟨badRow, List.mem_singleton_self badRow, rfl⟩

/-- Every request `login` issues is the index probe or the login form post. -/
theorem login_trace_shape (env : Env) (user : User) (force : Bool) :
    ∀ r ∈ (login env user force).2,
      r = Request.getIndex ∨ r = Request.postLogin user.name user.password := by
  intro r hr
  unfold login loginSubmit is_logged_in at hr
  cases force with
  | true =>
    cases hpl : env.resp (Request.postLogin user.name user.password) with
    | none => simp [hpl] at hr; simp [hr]
    | some resp2 => simp [hpl] at hr; simp [hr]
  | false =>
    cases hgi : env.resp Request.getIndex with
    | none =>
      simp [hgi] at hr
      simp [hr]
    | some resp =>
      cases hs : resp.success with
      | false =>
        simp [hgi, hs] at hr
        simp [hr]
      | true =>
        cases hb : resp.path == INDEX_PATH with
        | true =>
          simp [hgi, hs, hb] at hr
          simp [hr]
        | false =>
          cases hpl : env.resp (Request.postLogin user.name user.password) with
          | none =>
            simp [hgi, hs, hb, hpl] at hr
            tauto
          | some resp2 =>
            simp [hgi, hs, hb, hpl] at hr
            tauto

/-- The trace of `status` is the trace of its login step, followed by the index
page fetch when the login step succeeded. -/
theorem status_trace_cases (env : Env) (user : User) :
    (status env user).2 = (login env user false).2 ∨
    (status env user).2 = (login env user false).2 ++ [Request.getIndex] := by
  unfold status
  split
  · left
    rename_i heq
    rw [heq]
  · rename_i heq
    rw [heq]
    split
    · right; rfl
    · split
      · right; rfl
      · split
        · right; rfl
        · right; rfl

/-- Every request `status` issues is the index probe, the index page fetch, or
the login form post; in particular it issues no approve or revoke post. -/
theorem status_trace_shape (env : Env) (user : User) :
    ∀ r ∈ (status env user).2,
      r = Request.getIndex ∨ r = Request.postLogin user.name user.password := by
  intro r hr
  rcases status_trace_cases env user with h | h <;> rw [h] at hr
  · exact login_trace_shape env user false r hr
  · rcases List.mem_append.mp hr with h2 | h2
    · exact login_trace_shape env user false r h2
    · left; simpa using h2

/-- C3: unforced login probes the index page and, whenever the probe resolves to
the index path, succeeds without posting the form; otherwise — and always when
forced — it posts the login form, whose resolved path is classified as: index
path success, login path `InvalidCredentials`, any other path a generic `Other`
error carrying that path. -/
theorem login_classification (env : Env) (user : User) (probe : Response)
    (hp : env.resp .getIndex = some probe) (hps : probe.success = true) :
    (probe.path = INDEX_PATH →
       login env user false = (.ok (), [.getIndex])) ∧
    (probe.path ≠ INDEX_PATH →
       login env user false =
         ((loginSubmit env user).1, .getIndex :: (loginSubmit env user).2)) ∧
    login env user true = loginSubmit env user ∧
    Request.postLogin user.name user.password ∈ (loginSubmit env user).2 ∧
    (∀ resp : Response, env.resp (.postLogin user.name user.password) = some resp →
       resp.success = true →
       ((resp.path = INDEX_PATH → (loginSubmit env user).1 = .ok ()) ∧
        (resp.path = LOGIN_PATH →
           (loginSubmit env user).1 = .error .invalidCredentials) ∧
        (resp.path ≠ INDEX_PATH → resp.path ≠ LOGIN_PATH →
           (loginSubmit env user).1 =
             .error (.other ("Unexpected URL path in login response " ++ resp.path))))) := by
  refine ⟨?_, ?_, rfl, ?_, ?_⟩
  · intro h
    simp [login, is_logged_in, hp, hps, h]
  · intro h
    have hb : (probe.path == INDEX_PATH) = false := beq_eq_false_iff_ne.mpr h
    simp [login, is_logged_in, hp, hps, hb]
  · unfold loginSubmit
    cases henv : env.resp (.postLogin user.name user.password) <;> simp
  · intro resp hresp hrs
    refine ⟨?_, ?_, ?_⟩
    · intro h
      simp [loginSubmit, hresp, hrs, h]
    · intro h
      have hne : resp.path ≠ INDEX_PATH := by rw [h]; decide
      simp [loginSubmit, hresp, hrs, h, hne]
      decide
    · intro h1 h2
      simp [loginSubmit, hresp, hrs, h1, h2]

/-- Witness for C3 in `envW`, whose index probe resolves to the index path. -/
theorem login_classification_witness :
    login envW userW false = (.ok (), [.getIndex]) :=
  (login_classification envW userW
    { success := true, path := INDEX_PATH, body := sampleDoc } rfl rfl).1 rfl

/-- C2: a successful status query returns a mapping without the caller's own
address — the table's own entry, when present, is moved into `system_status`,
and its absence yields the inactive zero default rather than an error. -/
theorem status_excludes_own_ip (env : Env) (user : User) (ip : IpAddr) (m : ConnMap)
    (tr0 : List Request) (page : Response)
    (hlogin : login env user false = (.ok (), tr0))
    (hpage : env.resp .getIndex = some page)
    (hparse : parse_connections (time_now env) page.body = .ok m)
    (hip : env.localIp = some ip) :
    status env user =
      (.ok { system_status :=
               { ip := ip, connection := (lookupConn m ip).getD Connection.default },
             connections := eraseConn m ip },
       tr0 ++ [.getIndex]) ∧
    lookupConn (eraseConn m ip) ip = none ∧
    (lookupConn m ip = none →
       (lookupConn m ip).getD Connection.default = Connection.default) := by
  refine ⟨?_, lookup_erase m ip, ?_⟩
  · simp only [status, hlogin, hpage, hparse, hip]
  · intro h
    rw [h]
    rfl

/-- Witness for C2 in `envW`, whose table contains the caller's own address. -/
theorem status_excludes_own_ip_witness :
    status envW userW =
      (.ok { system_status :=
               { ip := ownIp, connection := (lookupConn mW ownIp).getD Connection.default },
             connections := eraseConn mW ownIp },
       [.getIndex] ++ [.getIndex]) ∧
    lookupConn (eraseConn mW ownIp) ownIp = none :=
  ⟨(status_excludes_own_ip envW userW ownIp mW [.getIndex] pageW rfl rfl rfl rfl).1,
   (status_excludes_own_ip envW userW ownIp mW [.getIndex] pageW rfl rfl rfl rfl).2.1⟩

/-- Witness for C9: `sampleRow` evaluated one hour after its expiry parses to a
connection whose remaining time is exactly zero. -/
theorem parse_time_left_clamped_witness :
    0 ≤ cExpired.time_left ∧ cExpired.time_left = 0 :=
  ⟨(parse_time_left_clamped (sampleExpiry.toSecs + 3600) sampleRow ownIp cExpired rfl).1,
   (parse_time_left_clamped (sampleExpiry.toSecs + 3600) sampleRow ownIp cExpired rfl).2
     (.element "td" (nlist [.text "24 Jul 2023, 10:07"])) "24 Jul 2023, 10:07" sampleExpiry
     rfl rfl rfl (by decide)⟩

/-- C5: when the caller's own connection is already active, unforced approve
returns the own address and the whole call has issued no approve post; forced
approve posts the approve form regardless of the connection state, succeeding
exactly when the response resolves to the index path. -/
theorem approve_force_semantics (env : Env) (user : User) (di : Nat) (st : Status)
    (tr : List Request) (hst : status env user = (.ok st, tr)) :
    (st.system_status.connection.isActive = true →
       approve env user di false = (.ok st.system_status.ip, tr) ∧
       ∀ n : Nat, Request.postApprove n ∉ tr) ∧
    (approve env user di true).2 = tr ++ [.postApprove di] ∧
    (∀ resp : Response, env.resp (.postApprove di) = some resp → resp.success = true →
       ((approve env user di true).1 = .ok st.system_status.ip ↔
          resp.path = INDEX_PATH)) := by
  have htr : ∀ n : Nat, Request.postApprove n ∉ tr := by
    intro n hmem
    have hshape := status_trace_shape env user (Request.postApprove n) (by rw [hst]; exact hmem)
    rcases hshape with h | h <;> simp at h
  refine ⟨?_, ?_, ?_⟩
  · intro hact
    refine ⟨?_, htr⟩
    simp [approve, hst, hact]
  · cases hresp : env.resp (.postApprove di) with
    | none => simp [approve, hst, hresp]
    | some resp => simp [approve, hst, hresp]
  · intro resp hresp hrs
    by_cases hpath : resp.path = INDEX_PATH
    · simp [approve, hst, hresp, hrs, hpath]
    · have hb : (resp.path == INDEX_PATH) = false := beq_eq_false_iff_ne.mpr hpath
      simp [approve, hst, hresp, hrs, hb, hpath]

/-- Witness for C5 in `envW`: the own connection is active, so the unforced
call stops at the status trace, and the forced call appends the approve post. -/
theorem approve_force_semantics_witness :
    approve envW userW 1 false = (.ok stW.system_status.ip, [.getIndex, .getIndex]) ∧
    (approve envW userW 1 true).2 = [.getIndex, .getIndex] ++ [.postApprove 1] :=
  ⟨((approve_force_semantics envW userW 1 stW [.getIndex, .getIndex] rfl).1 (by decide)).1,
   (approve_force_semantics envW userW 1 stW [.getIndex, .getIndex] rfl).2.1⟩

/-- C10: `check_user_passowrd` is exactly a forced login: it posts the login
form unconditionally, and its result is insensitive to everything but the
response to that post (in particular to whether a session is already
authenticated). -/
theorem check_user_passowrd_forced (env env2 : Env) (user : User)
    (h : env.resp (.postLogin user.name user.password) =
         env2.resp (.postLogin user.name user.password)) :
    check_user_passowrd env user = login env user true ∧
    Request.postLogin user.name user.password ∈ (check_user_passowrd env user).2 ∧
    check_user_passowrd env user = check_user_passowrd env2 user := by
  refine ⟨rfl, ?_, ?_⟩
  · unfold check_user_passowrd login loginSubmit
    cases henv : env.resp (.postLogin user.name user.password) <;> simp
  · unfold check_user_passowrd login loginSubmit
    rw [h]
    rfl

/-- Witness for C10: `envW` (authenticated session) and `envNoSession` answer
the login post identically, so forced credential checking coincides. -/
theorem check_user_passowrd_forced_witness :
    check_user_passowrd envW userW = login envW userW true ∧
    Request.postLogin userW.name userW.password ∈ (check_user_passowrd envW userW).2 ∧
    check_user_passowrd envW userW = check_user_passowrd envNoSession userW :=
  check_user_passowrd_forced envW envNoSession userW rfl

/-- C1 (code bug): in `envW` the caller's own connection is active, yet
`revoke(user, None)` returns the own address after only the two index requests
of the status computation — no revoke post is ever issued — because
`Status::is_connection_active` consults only the `connections` map, from which
`status` has already removed the caller's own entry. -/
theorem revoke_own_active_noop :
    (status envW userW).1 = .ok stW ∧
    stW.system_status.connection.isActive = true ∧
    revoke envW userW none = (.ok ownIp, [.getIndex, .getIndex]) :=
  ⟨rfl, by decide, rfl⟩

/-- C7: parked on the retry one-shot after an `Error` emission — which is where
every failing iteration parks the loop — the monitor emits no state, posts no
status snapshot and issues no request on any signal, there is no timeout
(in particular the suspend timer does not move it), and only the retry signal
returns it to the iteration start. -/
theorem monitor_error_blocks (env : Env) (user : User) (di sd : Nat) (e : Error) (s : Signal) :
    (monitorStep env user di sd (.retryWait e) s).states = [] ∧
    (monitorStep env user di sd (.retryWait e) s).watch = [] ∧
    (monitorStep env user di sd (.retryWait e) s).reqs = [] ∧
    ((monitorStep env user di sd (.retryWait e) s).phase = .ready ↔ s = .retry) ∧
    (s ≠ .retry → s ≠ .retryDropped →
       monitorStep env user di sd (.retryWait e) s = ⟨.retryWait e, [], [], []⟩) ∧
    (∀ err : Error, (monitorIter env user di sd).outcome = .error err →
       (monitorStep env user di sd .ready .runBody).phase = .retryWait err ∧
       (monitorStep env user di sd .ready .runBody).states =
         (monitorIter env user di sd).states ++ [.errored err]) := by
  refine ⟨?_, ?_, ?_, ?_, ?_, ?_⟩
  · cases s <;> rfl
  · cases s <;> rfl
  · cases s <;> rfl
  · cases s <;> simp [monitorStep]
  · cases s <;> simp [monitorStep]
  · intro err herr
    simp [monitorStep, herr]

/-- Witness for C7: an elapsed suspend timer leaves the error park unchanged. -/
theorem monitor_error_blocks_witness :
    monitorStep envW userW 1 300 (.retryWait (.other "boom")) .timerElapsed =
      ⟨.retryWait (.other "boom"), [], [], []⟩ :=
  (monitor_error_blocks envW userW 1 300 (.other "boom") .timerElapsed).2.2.2.2.1
    (by decide) (by decide)

end Netaccess
